import Mathlib

/-!
Verification development for the `correttore-Q-a` repository.

The repository is a Python system that parses multiple-choice question banks
from loosely formatted text, asks an external LLM oracle to solve each
question, reconciles the oracle judgment against the document's answer key,
and applies corrections.  This file gives a shallow embedding of the core
data model and operations (`models.py`, `validator.py`, `corrector.py`,
`Qa_corrector.py`) and proves the specified properties about them.

Python strings are modelled as Lean `String`s; the few string primitives the
source uses (`strip`, `upper`, `lower`, substring containment, regex
matching on single lines) are implemented here on `List Char`, restricted to
ASCII case mapping and the ASCII + mathematical-alphanumeric characters the
source's regexes mention.  Python dicts (insertion ordered, update in place)
are modelled as association lists with in-place update.
-/

/-! ### Python string primitives -/

/-- Python `\s` / `str.strip` whitespace, restricted to the ASCII range. -/
def pyIsSpace (c : Char) : Bool :=
  c = ' ' || c = '\t' || c = '\n' || c = '\r' || c = Char.ofNat 11 || c = Char.ofNat 12

/-- Python `str.strip()` on a character list. -/
def pyStrip (cs : List Char) : List Char :=
  ((cs.dropWhile pyIsSpace).reverse.dropWhile pyIsSpace).reverse

/-- Python `str.strip()` on a `String`. -/
def pyStripS (s : String) : String :=
  String.mk (pyStrip s.data)

/-- Python `str.upper()` (ASCII case mapping). -/
def pyUpper (s : String) : String :=
  String.mk (s.data.map Char.toUpper)

/-- A one-character Python string. -/
def charToStr (c : Char) : String :=
  String.mk [c]

/-- Python `str.isupper()` on a single character (ASCII range). -/
def pyIsUpperChar (c : Char) : Bool :=
  'A' ≤ c && c ≤ 'Z'

/-- Case-insensitive literal match: drops the pattern (given lowercase) from
the front of the input, returning the rest, or `none` if it does not match.
This is the building block for the source's `re.IGNORECASE` literal parts. -/
def dropLitCI : List Char → List Char → Option (List Char)
  | [], cs => some cs
  | _ :: _, [] => none
  | p :: ps, c :: cs => if c.toLower = p then dropLitCI ps cs else none

/-- `dropLitCI` with the pattern given as a string literal. -/
def dropPatCI (pat : String) (cs : List Char) : Option (List Char) :=
  dropLitCI pat.data cs

/-- Substring containment (Python `needle in hay`). -/
def hasSubstr (needle : List Char) : List Char → Bool
  | [] => needle.isEmpty
  | c :: rest => needle.isPrefixOf (c :: rest) || hasSubstr needle rest

/-- Number of whitespace-separated words, i.e. `len(s.split())` in Python:
counts maximal runs of non-whitespace characters. -/
def wordCount (cs : List Char) : Nat :=
  (cs.zip (' ' :: cs)).foldl
    (fun n p => if !pyIsSpace p.1 && pyIsSpace p.2 then n + 1 else n) 0

/-! ### Python dict model

Python dicts keep insertion order; assignment updates an existing key in
place or appends a fresh one.  Keys stay unique because every update goes
through `dictSet`. -/

/-- `d[k] = v` on an association list. -/
def dictSet [DecidableEq κ] : List (κ × String) → κ → String → List (κ × String)
  | [], k, v => [(k, v)]
  | (k', v') :: rest, k, v =>
    if k' = k then (k, v) :: rest else (k', v') :: dictSet rest k v

/-- `d.get(k)` on an association list. -/
def dictGet? [DecidableEq κ] : List (κ × String) → κ → Option String
  | [], _ => none
  | (k', v') :: rest, k => if k' = k then some v' else dictGet? rest k

/-- `k in d` on an association list. -/
def dictHas [DecidableEq κ] (m : List (κ × String)) (k : κ) : Bool :=
  (dictGet? m k).isSome

/-! ### `models.py` — shared data model -/

/-- `models.CorrectionType` (a string enum in the source). -/
inductive CorrectionType where
  | none
  | wrong_answer_letter
  | wrong_answer_text
  | wrong_question
  | no_correct_option
deriving DecidableEq

/-- `models.Answer`: one option of a multiple-choice question. -/
structure Answer where
  letter : String
  text : String
deriving DecidableEq

/-- `models.Question` (the pydantic model of the JSON pipeline). -/
structure Question where
  id : String
  question : String
  answers : List Answer
  correct_answer : String
  category : Option String
deriving DecidableEq

/-- `models.SolverResult`: the oracle's judgment.  The Python `confidence`
field is a float in `[0,1]`; no verified property depends on it, so it is
modelled as a rational. -/
structure SolverResult where
  reasoning : String
  calculated_answer : String
  confidence : Rat
  matching_letter : Option String
deriving DecidableEq

/-- `models.ValidationResult`. -/
structure ValidationResult where
  question_id : String
  is_correct : Bool
  solver_result : SolverResult
  original_correct_answer : String
  correction_type : CorrectionType := CorrectionType.none
  suggested_correction : Option String := Option.none
  error_message : Option String := Option.none
deriving DecidableEq

/-- `models.Correction`. -/
structure Correction where
  question_id : String
  correction_type : CorrectionType
  field_to_correct : String
  old_value : String
  new_value : String
deriving DecidableEq

/-! ### `validator.py` — `QuestionValidator` -/

namespace QuestionValidator

/-- `QuestionValidator.validate` (validator.py lines 14-61).  The solver has
already run; its judgment is passed in as `solver_result`.  `if
calculated_letter:` in the source is Python truthiness on an optional
string, i.e. the letter is present and non-empty. -/
def validate (question : Question) (solver_result : SolverResult) : ValidationResult :=
  let original_correct := pyUpper question.correct_answer
  let noOptionResult : ValidationResult :=
    { question_id := question.id
      is_correct := false
      solver_result := solver_result
      original_correct_answer := original_correct
      correction_type := CorrectionType.no_correct_option
      error_message := some ("Nessuna opzione corrisponde alla risposta calcolata: "
        ++ solver_result.calculated_answer) }
  match solver_result.matching_letter with
  | some calculated_letter =>
    if calculated_letter ≠ "" then
      if pyUpper calculated_letter = original_correct then
        { question_id := question.id
          is_correct := true
          solver_result := solver_result
          original_correct_answer := original_correct
          correction_type := CorrectionType.none }
      else
        { question_id := question.id
          is_correct := false
          solver_result := solver_result
          original_correct_answer := original_correct
          correction_type := CorrectionType.wrong_answer_letter
          suggested_correction := some (pyUpper calculated_letter)
          error_message := some ("La risposta corretta dovrebbe essere "
            ++ calculated_letter ++ ", non " ++ original_correct) }
    else noOptionResult
  | none => noOptionResult

/-- `QuestionValidator.generate_correction` (validator.py lines 63-92). -/
def generate_correction (validation_result : ValidationResult) (question : Question) :
    Option Correction :=
  if validation_result.is_correct then none
  else if validation_result.correction_type = CorrectionType.wrong_answer_letter then
    some { question_id := question.id
           correction_type := CorrectionType.wrong_answer_letter
           field_to_correct := "correct_answer"
           old_value := validation_result.original_correct_answer
           new_value := (validation_result.suggested_correction.getD "") }
  else if validation_result.correction_type = CorrectionType.no_correct_option then
    match question.answers.find?
        (fun a => pyUpper a.letter == validation_result.original_correct_answer) with
    | some correct_answer_obj =>
      some { question_id := question.id
             correction_type := CorrectionType.wrong_answer_text
             field_to_correct := "answers[" ++ validation_result.original_correct_answer
               ++ "].text"
             old_value := correct_answer_obj.text
             new_value := validation_result.solver_result.calculated_answer }
    | none => none
  else none

end QuestionValidator

/-! ### `corrector.py` — `QuestionCorrector` -/

namespace QuestionCorrector

/-- The letter extracted from a field path such as `"answers[A].text"` by
`field_to_correct.split("[")[1].split("]")[0]` (corrector.py line 27): the
text after the first `[` and before the following `[` or `]`.  (On a path
with no `[` the Python code raises `IndexError`; the total model returns the
empty string there — no caller produces such a path.) -/
def fieldLetter (field : String) : String :=
  String.mk (((field.data.dropWhile (fun c => c != '[')).drop 1).takeWhile
    (fun c => c != '[' && c != ']'))

/-- The `for answer in question_dict["answers"]: ... break` loop of
`apply_correction`: replaces the text of the first answer whose letter
matches case-insensitively, leaving everything else untouched. -/
def set_answer_text : List Answer → String → String → List Answer
  | [], _, _ => []
  | a :: rest, letter, v =>
    if pyUpper a.letter = pyUpper letter then { a with text := v } :: rest
    else a :: set_answer_text rest letter v

/-- `QuestionCorrector.apply_correction` (corrector.py lines 12-37): builds a
fresh record (`model_dump` + reconstruction in the source) and changes only
the field addressed by the correction. -/
def apply_correction (question : Question) (correction : Correction) : Question :=
  match correction.correction_type with
  | CorrectionType.wrong_answer_letter =>
    { question with correct_answer := correction.new_value }
  | CorrectionType.wrong_answer_text =>
    let letter := fieldLetter correction.field_to_correct
    { question with answers := set_answer_text question.answers letter correction.new_value }
  | CorrectionType.wrong_question =>
    { question with question := correction.new_value }
  | _ => question

end QuestionCorrector

/-! ### `Qa_corrector.py` — PDF pipeline

The pipeline's `parse_questions_and_answers` takes the extracted text and
splits it on newlines; the embedding takes the already-split line list
(`List String`).  The whole-text regular expressions of the source
(`re.search` / `re.findall`) are modelled as per-line scanners: every regex
involved matches within a single line for every line-structured document
(their character classes exclude `\n` except via `\s`, which the source only
uses between tokens of one line). -/

namespace QaCorrector

/-- `Qa_corrector.Question` — the dataclass of the PDF pipeline (lines
27-43).  Fields after `provided_answer` are populated only after the oracle
round trip; the defaults mirror the dataclass defaults. -/
structure Question where
  number : Nat
  category : String
  text : String
  options : List (String × String)
  provided_answer : String
  calculated_answer : Option String := Option.none
  calculated_value : Option String := Option.none
  is_correct : Option Bool := Option.none
  confidence : String := "high"
  correction_type : Option String := Option.none
  suggested_correction : Option String := Option.none
  notes : String := ""
deriving DecidableEq

/-- `normalize_letter` (lines 218-226) on the single character the regex
groups supply: maps the mathematical italic (U+1D434..), bold italic
(U+1D468..) and bold (U+1D400..) capital glyphs A-D to plain letters, and
upper-cases anything else. -/
def normalize_letter (c : Char) : Char :=
  if c = Char.ofNat 0x1D434 || c = Char.ofNat 0x1D468 || c = Char.ofNat 0x1D400 then 'A'
  else if c = Char.ofNat 0x1D435 || c = Char.ofNat 0x1D469 || c = Char.ofNat 0x1D401 then 'B'
  else if c = Char.ofNat 0x1D436 || c = Char.ofNat 0x1D46A || c = Char.ofNat 0x1D402 then 'C'
  else if c = Char.ofNat 0x1D437 || c = Char.ofNat 0x1D46B || c = Char.ofNat 0x1D403 then 'D'
  else c.toUpper

/-- The regex class `[A-Da-d]`. -/
def isAnswerLetterAscii (c : Char) : Bool :=
  ('A' ≤ c && c ≤ 'D') || ('a' ≤ c && c ≤ 'd')

/-- The class `[A-Da-d𝑨𝑩𝑪𝑫]` of the trailing-block entry regex (line 97). -/
def isBlockEntryLetter (c : Char) : Bool :=
  isAnswerLetterAscii c || c = Char.ofNat 0x1D468 || c = Char.ofNat 0x1D469
    || c = Char.ofNat 0x1D46A || c = Char.ofNat 0x1D46B

/-- The class `[𝐴𝐵𝐶𝐷ABCDabcd]` of the option-line regex (line 182). -/
def isOptionLetterChar (c : Char) : Bool :=
  isAnswerLetterAscii c || c = Char.ofNat 0x1D434 || c = Char.ofNat 0x1D435
    || c = Char.ofNat 0x1D436 || c = Char.ofNat 0x1D437

/-- The regex class `[:\s]` used in `Answer[:\s]+`. -/
def isColonOrSpace (c : Char) : Bool :=
  c = ':' || pyIsSpace c

/-- Value of a digit run (`int` of a `\d+` group). -/
def digitsToNat (ds : List Char) : Nat :=
  ds.foldl (fun n c => n * 10 + (c.toNat - 48)) 0

/-- `^Answer\s*Key` (`re.match`, IGNORECASE) — line 135. -/
def answerKeyHeadingStart (cs : List Char) : Bool :=
  ((dropPatCI "answer" cs).bind (fun r => dropPatCI "key" (r.dropWhile pyIsSpace))).isSome

/-- `^Test\s*\d+` (`re.match`, IGNORECASE) — line 144. -/
def testHeadingStart (cs : List Char) : Bool :=
  match dropPatCI "test" cs with
  | some r =>
    match r.dropWhile pyIsSpace with
    | c :: _ => c.isDigit
    | [] => false
  | none => false

/-- `^(Explanation:|Correct\s*Answer:)` (`re.match`, IGNORECASE) — line 149. -/
def explanationOrCorrectAnswerStart (cs : List Char) : Bool :=
  (dropPatCI "explanation:" cs).isSome ||
    ((dropPatCI "correct" cs).bind (fun r => dropPatCI "answer:" (r.dropWhile pyIsSpace))).isSome

/-- `Correct\s*Answer[:\s]+([A-Da-d])` (IGNORECASE) tried at the head of the
input; returns the captured letter and the rest after it.  Used anchored for
the inline extraction at line 151 and unanchored (via `scanAll`) for the
fallback findall at lines 202-206. -/
def correctAnswerAt (cs : List Char) : Option (Char × List Char) :=
  match dropPatCI "correct" cs with
  | none => none
  | some r1 =>
    match dropPatCI "answer" (r1.dropWhile pyIsSpace) with
    | none => none
    | some r2 =>
      if (r2.takeWhile isColonOrSpace).isEmpty then none
      else
        match r2.dropWhile isColonOrSpace with
        | c :: rest => if isAnswerLetterAscii c then some (c, rest) else none
        | [] => none

/-- `(\d+)\s*[.\)]\s*([A-Da-d𝑨𝑩𝑪𝑫])` (line 97) tried at the head of the
input. -/
def blockEntryAt (cs : List Char) : Option ((Nat × Char) × List Char) :=
  let digits := cs.takeWhile Char.isDigit
  if digits.isEmpty then none
  else
    match (cs.dropWhile Char.isDigit).dropWhile pyIsSpace with
    | sep :: r2 =>
      if sep = '.' || sep = ')' then
        match r2.dropWhile pyIsSpace with
        | c :: rest =>
          if isBlockEntryLetter c then some ((digitsToNat digits, c), rest) else none
        | [] => none
      else none
    | [] => none

/-- `(\d+)\.\s*(?:Correct\s*)?Answer[:\s]+([A-Da-d])` (IGNORECASE, line 106)
tried at the head of the input. -/
def inlineNumberedAt (cs : List Char) : Option ((Nat × Char) × List Char) :=
  let digits := cs.takeWhile Char.isDigit
  if digits.isEmpty then none
  else
    match cs.dropWhile Char.isDigit with
    | '.' :: r1 =>
      let r2 := r1.dropWhile pyIsSpace
      let afterAnswer :=
        match (dropPatCI "correct" r2).bind (fun r => dropPatCI "answer" (r.dropWhile pyIsSpace)) with
        | some r => some r
        | none => dropPatCI "answer" r2
      match afterAnswer with
      | none => none
      | some r3 =>
        if (r3.takeWhile isColonOrSpace).isEmpty then none
        else
          match r3.dropWhile isColonOrSpace with
          | c :: rest =>
            if isAnswerLetterAscii c then some ((digitsToNat digits, c), rest) else none
          | [] => none
    | _ => none

/-- `re.findall` within one line: try the matcher at each position, skipping
one character on failure and resuming after the match on success (every
matcher above consumes at least one character when it succeeds).  The fuel
is the length of the input. -/
def scanAll (f : List Char → Option (α × List Char)) : Nat → List Char → List α
  | 0, _ => []
  | _, [] => []
  | fuel + 1, c :: cs =>
    match f (c :: cs) with
    | some (a, rest) => a :: scanAll f fuel rest
    | none => scanAll f fuel cs

/-- All matches of `f` in one line. -/
def findallLine (f : List Char → Option (α × List Char)) (line : String) : List α :=
  scanAll f line.data.length line.data

/-- `^(\d+)\.\s*(.*)` (line 157) on a (stripped) line: question number and
the rest of the line after the dot and following whitespace. -/
def newQuestionMatch (cs : List Char) : Option (Nat × List Char) :=
  let digits := cs.takeWhile Char.isDigit
  if digits.isEmpty then none
  else
    match cs.dropWhile Char.isDigit with
    | '.' :: rest => some (digitsToNat digits, rest.dropWhile pyIsSpace)
    | _ => none

/-- `^([𝐴𝐵𝐶𝐷ABCDabcd])\s*\)\s*(.*)` (line 182) on a (stripped) line. -/
def optionMatch (cs : List Char) : Option (Char × List Char) :=
  match cs with
  | c :: rest =>
    if isOptionLetterChar c then
      match rest.dropWhile pyIsSpace with
      | ')' :: r2 => some (c, r2.dropWhile pyIsSpace)
      | _ => none
    else none
  | [] => none

/-- The category heuristic's keyword list (line 168): classification is by
substring containment in the lower-cased remainder. -/
def categoryKeywords : List String :=
  ["?", "what", "which", "how", "find", "solve", "calculate", "evaluate",
    "determine", "if", "an", "the", "a "]

/-- `any(c in remaining.lower() for c in [...])` (line 168). -/
def hasCategoryKeyword (remaining : List Char) : Bool :=
  categoryKeywords.any (fun k => hasSubstr k.data (remaining.map Char.toLower))

/-- `save_question` (lines 229-241): appends a question only when the number
is positive and the options dict is non-empty; the provided answer comes
from the answer key with the `"?"` sentinel as default. -/
def save_question (questions : List Question) (num : Nat) (category : String)
    (text : String) (options : List (String × String))
    (answer_key : List (Nat × String)) : List Question :=
  if num > 0 && !options.isEmpty then
    questions ++ [{ number := num
                    category := category
                    text := pyStripS text
                    options := options
                    provided_answer := (dictGet? answer_key num).getD "?" }]
  else questions

/-- Python truthiness of the optional `current_question` string. -/
def oqTruthy : Option String → Bool
  | some s => s ≠ ""
  | none => false

/-- The mutable locals of the line-scanning loop (lines 123-129). -/
structure ScanState where
  questions : List Question
  answer_key : List (Nat × String)
  current_question : Option String
  current_options : List (String × String)
  question_num : Nat
  in_answer_key : Bool
  current_category : String
deriving DecidableEq

/-- One iteration of the line loop of `parse_questions_and_answers`
(lines 131-191), translated branch for branch. -/
def processLine (st : ScanState) (rawLine : String) : ScanState :=
  let line := pyStrip rawLine.data
  let lineS := String.mk line
  if answerKeyHeadingStart line then
    let st1 :=
      if oqTruthy st.current_question && !st.current_options.isEmpty then
        let qs := save_question st.questions st.question_num st.current_category
          (st.current_question.getD "") st.current_options st.answer_key
        { st with questions := qs }
      else st
    { st1 with in_answer_key := true }
  else if st.in_answer_key then
    if testHeadingStart line then { st with in_answer_key := false } else st
  else if explanationOrCorrectAnswerStart line then
    match correctAnswerAt line with
    | some (c, _) =>
      if st.question_num > 0 then
        { st with answer_key := dictSet st.answer_key st.question_num (charToStr c.toUpper) }
      else st
    | none => st
  else
    match newQuestionMatch line with
    | some (num, rest) =>
      let st1 :=
        if oqTruthy st.current_question && !st.current_options.isEmpty then
          let qs := save_question st.questions st.question_num st.current_category
            (st.current_question.getD "") st.current_options st.answer_key
          { st with questions := qs }
        else st
      let remaining := pyStrip rest
      let remS := String.mk remaining
      if !remaining.isEmpty && !hasCategoryKeyword remaining
          && wordCount remaining ≤ 3 && pyIsUpperChar (remaining.headD ' ')
          && !remaining.any Char.isDigit then
        { st1 with
            question_num := num
            current_category := remS
            current_question := some ""
            current_options := [] }
      else
        { st1 with
            question_num := num
            current_question := some remS
            current_options := [] }
    | none =>
      match optionMatch line with
      | some (c, rest) =>
        let opts := dictSet st.current_options (charToStr (normalize_letter c))
          (String.mk (pyStrip rest))
        { st with current_options := opts }
      | none =>
        if st.current_question.isSome && st.current_options.isEmpty then
          if !line.isEmpty && !("Explanation".data.isPrefixOf line) then
            { st with current_question := some (st.current_question.getD "" ++ " " ++ lineS) }
          else st
        else st

/-- One line of the trailing Answer Key heading: some suffix of the line is
`Answer\s*Key` followed only by colons and whitespace up to the end of the
line — exactly when the text-level `re.search` of line 87 can match
`Answer\s*Key[:\s]*\n` inside this line. -/
def akHeadingToEol (cs : List Char) : Bool :=
  match (dropPatCI "answer" cs).bind (fun r => dropPatCI "key" (r.dropWhile pyIsSpace)) with
  | some r => r.all isColonOrSpace
  | none => false

/-- A line contains the Answer Key heading (at any position). -/
def lineHasAKHeading : List Char → Bool
  | [] => false
  | c :: rest => akHeadingToEol (c :: rest) || lineHasAKHeading rest

/-- A whitespace-only line. -/
def blankLine (l : String) : Bool :=
  l.data.all pyIsSpace

/-- A line the heading's greedy `[:\s]*` can swallow whole (colons and
whitespace only). -/
def colonSpaceLine (l : String) : Bool :=
  l.data.all isColonOrSpace

/-- The `$` alternative of the FORMAT 1 terminator lookahead
`(?=\n\s*(?:Test\s*\d+|$))` taken at the newline that ends line `j`:
everything after that newline is whitespace (then `\s*` consumes it and `$`
matches at the end of the text). -/
def restIsWhitespace (lines : List String) (j : Nat) : Bool :=
  (lines.drop (j + 1)).all (fun l => blankLine l)

/-- The `Test` alternative of the terminator lookahead at the newline that
ends line `j`: after that newline, skipping whitespace (which may span
blank lines), the text continues `Test\s*\d`. -/
def restStartsWithTest (lines : List String) (j : Nat) : Bool :=
  match (lines.drop (j + 1)).dropWhile (fun l => blankLine l) with
  | [] => false
  | l :: _ => testHeadingStart (l.data.dropWhile pyIsSpace)

/-- The terminator lookahead `(?=\n\s*(?:Test\s*\d+|$))` holds at the
newline that ends line `j`. -/
def blockTerminatorAt (lines : List String) (j : Nat) : Bool :=
  restIsWhitespace lines j || restStartsWithTest lines j

/-- Where the captured block starts for a heading on line `i`: the
heading's greedy `[:\s]*` swallows any following colon/whitespace-only
lines together with their newlines, so the capture begins at the first
following line with other content.  `none` when no such line exists (then
any block the regex could still capture consists of colons and whitespace
only and holds no entries). -/
def captureStart (lines : List String) (i : Nat) : Option Nat :=
  (List.range' (i + 1) (lines.length - (i + 1))).find?
    (fun b => !colonSpaceLine (lines.getD b ""))

/-- The FORMAT 1 match attempt for a heading on line `i`: the block runs
from the capture start `b` to the earliest line `j` whose ending newline
satisfies the terminator lookahead (`j ≤ length - 2`, because the last
line has no ending newline).  `none` when no terminating newline exists —
then this heading yields no match at all and `re.search` moves on. -/
def format1BlockAt (lines : List String) (i : Nat) : Option (List String) :=
  match captureStart lines i with
  | none => none
  | some b =>
    match (List.range' b (lines.length - 1 - b)).find?
        (fun j => blockTerminatorAt lines j) with
    | none => none
    | some j => some ((lines.drop b).take (j + 1 - b))

/-- FORMAT 1 (lines 87-102): the trailing Answer Key block, per the regex
`Answer\s*Key[:\s]*\n([\s\S]*?)(?=\n\s*(?:Test\s*\d+|$))`.  The first
heading line whose match attempt completes — a terminating newline
followed by whitespace and a `Test N` heading, or by whitespace to the end
of the text, must exist — supplies the block; in particular a trailing
block not followed by a newline matches nothing.  Each
`<number><. or )><letter>` entry of the block is recorded, normalized and
upper-cased.  (A `Test`/digit token split across two lines is not
recognized, matching the per-line reading stated in the header.) -/
def format1Key (lines : List String) : List (Nat × String) :=
  match (List.range lines.length).findSome? (fun i =>
      if lineHasAKHeading (lines.getD i "").data then format1BlockAt lines i
      else none) with
  | none => []
  | some block =>
    ((block.map (fun l => findallLine blockEntryAt l)).flatten).foldl
      (fun ak p => dictSet ak p.1 (charToStr (normalize_letter p.2).toUpper)) []

/-- FORMAT 2 (lines 105-112): inline numbered answers; an entry is written
only when the question number is not already claimed. -/
def format2Key (lines : List String) (ak : List (Nat × String)) : List (Nat × String) :=
  ((lines.map (fun l => findallLine inlineNumberedAt l)).flatten).foldl
    (fun ak p => if dictHas ak p.1 then ak else dictSet ak p.1 (charToStr p.2.toUpper)) ak

/-- The sequential fallback (lines 200-208): when no answer key was found at
all, every `Correct Answer: X` occurrence is assigned positionally to
questions 1, 2, 3, … -/
def fallbackKey (lines : List String) : List (Nat × String) :=
  (((lines.map (fun l => findallLine correctAnswerAt l)).flatten).foldl
    (fun (p : List (Nat × String) × Nat) c =>
      (dictSet p.1 p.2 (charToStr (Char.toUpper c)), p.2 + 1)) ([], 1)).1

/-- The initial loop state (lines 123-129), with the answer key already
holding the format 1 and 2 entries (the source mutates one shared dict). -/
def initState (ak : List (Nat × String)) : ScanState :=
  { questions := []
    answer_key := ak
    current_question := Option.none
    current_options := []
    question_num := 0
    in_answer_key := false
    current_category := "" }

/-- `parse_questions_and_answers` (lines 75-215) on the line list of the
input text.  (The `correct_answer_pattern` findall of lines 116-120 is dead
code in the source — its result is never used — and is omitted.) -/
def parse_questions_and_answers (lines : List String) :
    List Question × List (Nat × String) :=
  let ak1 := format1Key lines
  let ak2 := format2Key lines ak1
  let st := lines.foldl processLine (initState ak2)
  let st :=
    if oqTruthy st.current_question && !st.current_options.isEmpty then
      let qs := save_question st.questions st.question_num st.current_category
        (st.current_question.getD "") st.current_options st.answer_key
      { st with questions := qs }
    else st
  let ak := if st.answer_key.isEmpty then fallbackKey lines else st.answer_key
  let qs := st.questions.map (fun q =>
    match dictGet? ak q.number with
    | some a => { q with provided_answer := a }
    | none => q)
  (qs, ak)

end QaCorrector

namespace QaCorrector

/-! #### Tie-break for missing options (`determine_random_letter`) -/

/-- The `nearby_answers` list of `determine_random_letter` (lines 333-340):
the provided answers of the questions at indices `max(0, idx-5) ..
min(len, idx+6)`, the current index excluded and empty (falsy) answers
skipped. -/
def nearby_answers (questions : List Question) (current_idx : Nat) : List String :=
  let start := current_idx - 5
  let stop := min questions.length (current_idx + 6)
  ((List.range' start (stop - start)).filter (fun i => i != current_idx)).filterMap
    (fun i =>
      match questions[i]? with
      | some q => if q.provided_answer ≠ "" then some q.provided_answer else Option.none
      | none => Option.none)

/-- One entry of the `freq` dict (lines 343-346): how many nearby answers
equal the given letter. -/
def letter_freq (nearby : List String) (letter : String) : Nat :=
  (nearby.filter (fun ans => ans == letter)).length

/-- `min(freq.values())` (line 349), the values in dict order A, B, C, D. -/
def min_freq (nearby : List String) : Nat :=
  min (min (min (letter_freq nearby "A") (letter_freq nearby "B"))
    (letter_freq nearby "C")) (letter_freq nearby "D")

/-- `candidates` (line 350): the letters of minimum frequency, in dict
order. -/
def tie_candidates (nearby : List String) : List String :=
  ["A", "B", "C", "D"].filter (fun k => letter_freq nearby k == min_freq nearby)

/-- `determine_random_letter` (lines 329-353).  `random.choice(candidates)`
is modelled by the `choice` parameter; any function that picks a member of a
non-empty list is a possible outcome of the random draw. -/
def determine_random_letter (questions : List Question) (current_idx : Nat)
    (choice : List String → String) : String :=
  choice (tie_candidates (nearby_answers questions current_idx))

/-! #### Checkpoint system (lines 360-384)

The checkpoint file holds `{last_processed_index, timestamp, questions}`.
`asdict` followed by `Question(**…)` restores every dataclass field, so the
JSON round trip is the identity on `Question`; the file system is modelled
as a map from paths to stored checkpoint data. -/

/-- The JSON object written by `save_checkpoint`. -/
structure CheckpointData where
  last_processed_index : Int
  timestamp : String
  questions : List Question
deriving DecidableEq

/-- The file system seen by the checkpoint manager. -/
def FileSystem : Type := String → Option CheckpointData

/-- Python list slicing `xs[:k]` (negative bounds count from the end). -/
def pySliceTo (xs : List α) (k : Int) : List α :=
  if k < 0 then xs.take (xs.length - k.natAbs) else xs.take k.toNat

/-- `save_checkpoint` (lines 360-368): writes the prefix
`questions[:last_idx + 1]` with the index and a timestamp. -/
def save_checkpoint (fs : FileSystem) (questions : List Question)
    (checkpoint_path : String) (last_idx : Int) (timestamp : String) : FileSystem :=
  fun p =>
    if p = checkpoint_path then
      some { last_processed_index := last_idx
             timestamp := timestamp
             questions := pySliceTo questions (last_idx + 1) }
    else fs p

/-- `load_checkpoint` (lines 371-384): `(-1, [])` when the file is absent,
otherwise the stored index and questions. -/
def load_checkpoint (fs : FileSystem) (checkpoint_path : String) :
    Int × List Question :=
  match fs checkpoint_path with
  | none => (-1, [])
  | some data => (data.last_processed_index, data.questions)

/-! #### Oracle round trip (`verify_question_with_claude`, lines 248-326) -/

/-- The JSON judgment parsed from the oracle's response; each field is
optional because the source reads it with `result.get(...)`. -/
structure OracleJudgment where
  correct_letter : Option String
  calculated_value : Option String
  confidence : Option String
  notes : Option String

/-- Outcome of the oracle round trip: a parsed judgment, a response body
that is not valid JSON (`json.JSONDecodeError`), or a transport failure
(`anthropic.APIError`).  Both exceptions are raised before any field of the
question is modified. -/
inductive OracleOutcome where
  | parsed (j : OracleJudgment)
  | jsonError (e : String)
  | apiError (e : String)

/-- `verify_question_with_claude` (lines 248-326) given the outcome of the
round trip. -/
def verify_question_with_claude (outcome : OracleOutcome) (question : Question) :
    Question :=
  match outcome with
  | OracleOutcome.parsed result =>
    let ca := pyUpper (result.correct_letter.getD "?")
    let q1 :=
      { question with
          calculated_answer := some ca
          calculated_value := some (result.calculated_value.getD "")
          confidence := result.confidence.getD "medium"
          notes := result.notes.getD "" }
    let q2 := { q1 with is_correct := some (ca == question.provided_answer) }
    if ca == question.provided_answer then q2
    else if dictHas q2.options ca then
      { q2 with correction_type := some "answer_key", suggested_correction := some ca }
    else
      { q2 with
          correction_type := some "option_missing"
          notes := q2.notes ++ " | Valore calcolato non presente tra le opzioni" }
  | OracleOutcome.jsonError e =>
    { question with
        confidence := "low"
        notes := "Errore parsing risposta: " ++ e
        is_correct := Option.none }
  | OracleOutcome.apiError e =>
    { question with
        confidence := "low"
        notes := "Errore API: " ++ e
        is_correct := Option.none }

end QaCorrector

/-! ### Concrete instances used by witnesses and counterexamples -/

/-- The question of the spec's reconciliation-table example: options
`{A: "2", B: "4", C: "6", D: "8"}` with provided answer `B`. -/
def c1Question : Question :=
  { id := "q1"
    question := "2+4=?"
    answers := [{ letter := "A", text := "2" }, { letter := "B", text := "4" },
      { letter := "C", text := "6" }, { letter := "D", text := "8" }]
    correct_answer := "B"
    category := Option.none }

/-- The oracle judgment of the spec's example: matched letter `C`. -/
def c1Solver : SolverResult :=
  { reasoning := ""
    calculated_answer := "6"
    confidence := 1
    matching_letter := some "C" }

/-- A solver judgment that matched no option. -/
def c9Solver : SolverResult :=
  { reasoning := ""
    calculated_answer := "42"
    confidence := 1
    matching_letter := Option.none }

/-- A `no_correct_option` validation result whose recorded answer is the
`"?"` sentinel. -/
def c9Result : ValidationResult :=
  { question_id := "q2"
    is_correct := false
    solver_result := c9Solver
    original_correct_answer := "?"
    correction_type := CorrectionType.no_correct_option }

/-- A validation result that is simply correct. -/
def c9ResultTrue : ValidationResult :=
  { question_id := "q2"
    is_correct := true
    solver_result := c9Solver
    original_correct_answer := "A" }

/-- A question whose recorded correct answer (`"?"`) matches no option
letter. -/
def c9Question : Question :=
  { id := "q2"
    question := "6*7=?"
    answers := [{ letter := "A", text := "41" }, { letter := "B", text := "43" }]
    correct_answer := "?"
    category := Option.none }

/-- A correction changing the recorded correct letter to `C`. -/
def c5Correction : Correction :=
  { question_id := "q1"
    correction_type := CorrectionType.wrong_answer_letter
    field_to_correct := "correct_answer"
    old_value := "B"
    new_value := "C" }

/-! ### C1 — validator decision table -/

/-- C1: for every question and oracle judgment (whose matched letter, when
present, is a non-empty string, as the solver guarantees), `validate`
returns exactly the decision-table outcome: matching letter equal (case
insensitively) to the recorded answer gives `is_correct = true` and
`correction_type = none`; a differing matching letter gives
`is_correct = false`, `correction_type = wrong_answer_letter` and the
matched letter upper-cased as suggestion; no matching letter gives
`is_correct = false`, `correction_type = no_correct_option` and no
suggested letter. -/
theorem claim_C1_validate_decision_table (q : Question) (sr : SolverResult)
    (hne : sr.matching_letter ≠ some "") :
    (∀ l, sr.matching_letter = some l →
      (pyUpper l = pyUpper q.correct_answer →
        (QuestionValidator.validate q sr).is_correct = true
          ∧ (QuestionValidator.validate q sr).correction_type = CorrectionType.none
          ∧ (QuestionValidator.validate q sr).suggested_correction = Option.none)
      ∧ (pyUpper l ≠ pyUpper q.correct_answer →
        (QuestionValidator.validate q sr).is_correct = false
          ∧ (QuestionValidator.validate q sr).correction_type
              = CorrectionType.wrong_answer_letter
          ∧ (QuestionValidator.validate q sr).suggested_correction = some (pyUpper l)))
    ∧ (sr.matching_letter = Option.none →
        (QuestionValidator.validate q sr).is_correct = false
          ∧ (QuestionValidator.validate q sr).correction_type
              = CorrectionType.no_correct_option
          ∧ (QuestionValidator.validate q sr).suggested_correction = Option.none) := by
  constructor
  · intro l hl
    have hne' : l ≠ "" := fun h => hne (h ▸ hl)
    constructor
    · intro heq
      simp [QuestionValidator.validate, hl, hne', heq]
    · intro hneq
      simp [QuestionValidator.validate, hl, hne', hneq]
  · intro h
    simp [QuestionValidator.validate, h]

/-- Witness for C1: the spec's example — options 2/4/6/8, provided answer
`B`, oracle letter `C` — yields an incorrect result with a
`wrong_answer_letter` correction suggesting `C`. -/
theorem claim_C1_witness :
    (QuestionValidator.validate c1Question c1Solver).is_correct = false
      ∧ (QuestionValidator.validate c1Question c1Solver).correction_type
          = CorrectionType.wrong_answer_letter
      ∧ (QuestionValidator.validate c1Question c1Solver).suggested_correction = some "C" :=
  ((claim_C1_validate_decision_table c1Question c1Solver (by decide)).1 "C" rfl).2 (by decide)

/-! ### C9 — `generate_correction` returns nothing when there is nothing to fix -/

/-- C9: `generate_correction` returns `none` for every validation result
with `is_correct = true`, and for every `no_correct_option` result on a
question none of whose options carries the recorded original correct answer
(for instance when that answer is the `"?"` sentinel); in particular at most
one correction (an `Option`) is produced per result. -/
theorem claim_C9_generate_correction_none (vr : ValidationResult) (q : Question) :
    (vr.is_correct = true → QuestionValidator.generate_correction vr q = Option.none)
    ∧ (vr.correction_type = CorrectionType.no_correct_option →
        q.answers.find? (fun a => pyUpper a.letter == vr.original_correct_answer)
            = Option.none →
        QuestionValidator.generate_correction vr q = Option.none) := by
  constructor
  · intro h
    simp [QuestionValidator.generate_correction, h]
  · intro hct hfind
    by_cases hic : vr.is_correct
    · simp [QuestionValidator.generate_correction, hic]
    · simp [QuestionValidator.generate_correction, hic, hct, hfind]

/-- Witness for C9: a correct result yields no correction, and a
`no_correct_option` result whose recorded answer is the `"?"` sentinel (not
the letter of any option) yields no correction either. -/
theorem claim_C9_witness :
    QuestionValidator.generate_correction c9ResultTrue c9Question = Option.none
      ∧ QuestionValidator.generate_correction c9Result c9Question = Option.none :=
  ⟨(claim_C9_generate_correction_none c9ResultTrue c9Question).1 rfl,
    (claim_C9_generate_correction_none c9Result c9Question).2 rfl (by decide)⟩

/-! ### C5 — `apply_correction` is pure and frame-preserving -/

/-- Structure of `set_answer_text`: either no answer's letter matches and
the list is returned unchanged, or the list splits around the first
matching answer, which alone has its text replaced. -/
theorem set_answer_text_cases (xs : List Answer) (L v : String) :
    (QuestionCorrector.set_answer_text xs L v = xs
        ∧ ∀ a ∈ xs, pyUpper a.letter ≠ pyUpper L)
    ∨ ∃ p a s, xs = p ++ a :: s
        ∧ (∀ b ∈ p, pyUpper b.letter ≠ pyUpper L)
        ∧ pyUpper a.letter = pyUpper L
        ∧ QuestionCorrector.set_answer_text xs L v = p ++ { a with text := v } :: s := by
  induction xs with
  | nil =>
    left
    exact ⟨rfl, by simp⟩
  | cons a rest ih =>
    by_cases h : pyUpper a.letter = pyUpper L
    · right
      refine ⟨[], a, rest, by simp, by simp, h, ?_⟩
      simp [QuestionCorrector.set_answer_text, h]
    · rcases ih with ⟨heq, hall⟩ | ⟨p, b, s, hxs, hp, hb, hset⟩
      · left
        constructor
        · simp [QuestionCorrector.set_answer_text, h, heq]
        · intro x hx
          rcases List.mem_cons.mp hx with rfl | hx
          · exact h
          · exact hall x hx
      · right
        refine ⟨a :: p, b, s, by simp [hxs], ?_, hb, ?_⟩
        · intro x hx
          rcases List.mem_cons.mp hx with rfl | hx
          · exact h
          · exact hp x hx
        · simp [QuestionCorrector.set_answer_text, h, hset]

/-- C5: `apply_correction` is pure (it builds a new record from the input)
and touches only the targeted field: the id and category always survive; a
`wrong_answer_letter` correction changes exactly `correct_answer`; a
`wrong_question` correction changes exactly the question text; a
`wrong_answer_text` correction keeps question and `correct_answer` and
rewrites only the text of the first answer whose letter matches the
addressed letter; any other correction type returns the record unchanged. -/
theorem claim_C5_apply_correction_frame (q : Question) (c : Correction) :
    ((QuestionCorrector.apply_correction q c).id = q.id
      ∧ (QuestionCorrector.apply_correction q c).category = q.category)
    ∧ (c.correction_type = CorrectionType.wrong_answer_letter →
        QuestionCorrector.apply_correction q c = { q with correct_answer := c.new_value })
    ∧ (c.correction_type = CorrectionType.wrong_question →
        QuestionCorrector.apply_correction q c = { q with question := c.new_value })
    ∧ (c.correction_type = CorrectionType.wrong_answer_text →
        (QuestionCorrector.apply_correction q c).question = q.question
          ∧ (QuestionCorrector.apply_correction q c).correct_answer = q.correct_answer
          ∧ ((QuestionCorrector.apply_correction q c).answers = q.answers
             ∨ ∃ p a s, q.answers = p ++ a :: s
                 ∧ pyUpper a.letter
                     = pyUpper (QuestionCorrector.fieldLetter c.field_to_correct)
                 ∧ (QuestionCorrector.apply_correction q c).answers
                     = p ++ { a with text := c.new_value } :: s))
    ∧ ((c.correction_type = CorrectionType.none
          ∨ c.correction_type = CorrectionType.no_correct_option) →
        QuestionCorrector.apply_correction q c = q) := by
  refine ⟨?_, ?_, ?_, ?_, ?_⟩
  · cases hc : c.correction_type <;> simp [QuestionCorrector.apply_correction, hc]
  · intro h
    simp [QuestionCorrector.apply_correction, h]
  · intro h
    simp [QuestionCorrector.apply_correction, h]
  · intro h
    refine ⟨by simp [QuestionCorrector.apply_correction, h],
      by simp [QuestionCorrector.apply_correction, h], ?_⟩
    rcases set_answer_text_cases q.answers
        (QuestionCorrector.fieldLetter c.field_to_correct) c.new_value with
      ⟨heq, _⟩ | ⟨p, a, s, hxs, _, ha, hset⟩
    · left
      simp [QuestionCorrector.apply_correction, h, heq]
    · right
      exact ⟨p, a, s, hxs, ha, by simp [QuestionCorrector.apply_correction, h, hset]⟩
  · intro h
    rcases h with h | h <;> simp [QuestionCorrector.apply_correction, h]

/-- Witness for C5: applying the concrete `wrong_answer_letter` correction
to the example question changes only its `correct_answer` field. -/
theorem claim_C5_witness :
    QuestionCorrector.apply_correction c1Question c5Correction
      = { c1Question with correct_answer := "C" } :=
  (claim_C5_apply_correction_frame c1Question c5Correction).2.1 rfl

/-! ### C4 — oracle failures degrade to low confidence, unknown correctness -/

/-- C4: whenever the oracle round trip fails — the response body is not
parseable JSON, or the transport call raises an API error — the returned
question record has `confidence = "low"`, a non-empty `notes` field naming
the failure, and `is_correct` left unknown (`none`), never `false`. -/
theorem claim_C4_oracle_failure (question : QaCorrector.Question) (e : String) :
    ((QaCorrector.verify_question_with_claude (QaCorrector.OracleOutcome.jsonError e)
          question).confidence = "low"
      ∧ (QaCorrector.verify_question_with_claude (QaCorrector.OracleOutcome.jsonError e)
          question).notes = "Errore parsing risposta: " ++ e
      ∧ (QaCorrector.verify_question_with_claude (QaCorrector.OracleOutcome.jsonError e)
          question).notes ≠ ""
      ∧ (QaCorrector.verify_question_with_claude (QaCorrector.OracleOutcome.jsonError e)
          question).is_correct = Option.none)
    ∧ ((QaCorrector.verify_question_with_claude (QaCorrector.OracleOutcome.apiError e)
          question).confidence = "low"
      ∧ (QaCorrector.verify_question_with_claude (QaCorrector.OracleOutcome.apiError e)
          question).notes = "Errore API: " ++ e
      ∧ (QaCorrector.verify_question_with_claude (QaCorrector.OracleOutcome.apiError e)
          question).notes ≠ ""
      ∧ (QaCorrector.verify_question_with_claude (QaCorrector.OracleOutcome.apiError e)
          question).is_correct = Option.none) := by
  refine ⟨⟨rfl, rfl, ?_, rfl⟩, ⟨rfl, rfl, ?_, rfl⟩⟩
  · intro h
    have h2 := congrArg String.data h
    simp [QaCorrector.verify_question_with_claude, String.data] at h2
  · intro h
    have h2 := congrArg String.data h
    simp [QaCorrector.verify_question_with_claude, String.data] at h2

/-! ### C6 — checkpoint round trip -/

/-- C6: loading immediately after `save_checkpoint(questions, path,
lastIndex)` yields exactly `(lastIndex, questions[0..lastIndex])` — the
serialized prefix of length `lastIndex + 1` — and loading from a path with
no checkpoint file yields `(-1, [])`.  (`lastIndex ≥ -1`, as at every call
site; the prefix of length `lastIndex + 1` is only meaningful there.) -/
theorem claim_C6_checkpoint_roundtrip (fs : QaCorrector.FileSystem)
    (questions : List QaCorrector.Question) (path : String) (last_idx : Int)
    (ts : String) (h : -1 ≤ last_idx) :
    QaCorrector.load_checkpoint
        (QaCorrector.save_checkpoint fs questions path last_idx ts) path
      = (last_idx, questions.take (last_idx + 1).toNat)
    ∧ ∀ (fs2 : QaCorrector.FileSystem) (p2 : String), fs2 p2 = Option.none →
        QaCorrector.load_checkpoint fs2 p2 = (-1, []) := by
  constructor
  · have hnn : ¬(last_idx + 1 < 0) := by omega
    simp [QaCorrector.load_checkpoint, QaCorrector.save_checkpoint,
      QaCorrector.pySliceTo, hnn]
  · intro fs2 p2 h2
    simp [QaCorrector.load_checkpoint, h2]

/-- The empty file system. -/
def qcEmptyFs : QaCorrector.FileSystem := fun _ => Option.none

/-- A minimal processed question for the checkpoint witness. -/
def qc6Question : QaCorrector.Question :=
  { number := 1
    category := ""
    text := "What is 2+2?"
    options := [("A", "3"), ("B", "4")]
    provided_answer := "B" }

/-- Witness for C6: saving index 0 of a one-question list and loading it
back returns `(0, [question])`; loading from an absent path returns
`(-1, [])`. -/
theorem claim_C6_witness :
    QaCorrector.load_checkpoint
        (QaCorrector.save_checkpoint qcEmptyFs [qc6Question] "ck.json" 0 "t") "ck.json"
      = (0, [qc6Question])
    ∧ QaCorrector.load_checkpoint qcEmptyFs "absent.json" = (-1, []) := by
  have h := claim_C6_checkpoint_roundtrip qcEmptyFs [qc6Question] "ck.json" 0 "t"
    (by decide)
  exact ⟨h.1, h.2 qcEmptyFs "absent.json" rfl⟩

/-! ### C3 / C10 — tie-break properties of `determine_random_letter` -/

/-- A letter of the option alphabet whose frequency is minimal is a
tie-break candidate. -/
theorem mem_tie_candidates (nearby : List String) (L : String)
    (hL : L ∈ ["A", "B", "C", "D"])
    (h : QaCorrector.letter_freq nearby L = QaCorrector.min_freq nearby) :
    L ∈ QaCorrector.tie_candidates nearby :=
  List.mem_filter.mpr ⟨hL, by simp [h]⟩

/-- The candidate list is never empty: the minimum of the four frequency
values is attained by one of the four letters. -/
theorem tie_candidates_ne_nil (nearby : List String) :
    QaCorrector.tie_candidates nearby ≠ [] := by
  have h : QaCorrector.min_freq nearby = QaCorrector.letter_freq nearby "A"
      ∨ QaCorrector.min_freq nearby = QaCorrector.letter_freq nearby "B"
      ∨ QaCorrector.min_freq nearby = QaCorrector.letter_freq nearby "C"
      ∨ QaCorrector.min_freq nearby = QaCorrector.letter_freq nearby "D" := by
    unfold QaCorrector.min_freq
    omega
  rcases h with h | h | h | h
  · exact List.ne_nil_of_mem (mem_tie_candidates nearby "A" (by simp) h.symm)
  · exact List.ne_nil_of_mem (mem_tie_candidates nearby "B" (by simp) h.symm)
  · exact List.ne_nil_of_mem (mem_tie_candidates nearby "C" (by simp) h.symm)
  · exact List.ne_nil_of_mem (mem_tie_candidates nearby "D" (by simp) h.symm)

/-- `min_freq` is a lower bound of the four letter frequencies. -/
theorem min_freq_le (nearby : List String) (L : String)
    (hL : L ∈ ["A", "B", "C", "D"]) :
    QaCorrector.min_freq nearby ≤ QaCorrector.letter_freq nearby L := by
  simp at hL
  rcases hL with rfl | rfl | rfl | rfl <;> (unfold QaCorrector.min_freq; omega)

/-- The 11-question list of the spec's tie-break example: the neighborhood
of index 5 (its own `"?"` answer excluded) has provided answers
`[A, A, A, B, B, C, C, C, D, D]`. -/
def mkProvided (n : Nat) (ans : String) : QaCorrector.Question :=
  { number := n, category := "", text := "", options := [("A", "1")],
    provided_answer := ans }

/-- Concrete question list realizing the spec's tie-break neighborhood. -/
def c3Questions : List QaCorrector.Question :=
  [mkProvided 1 "A", mkProvided 2 "A", mkProvided 3 "A", mkProvided 4 "B",
    mkProvided 5 "B", mkProvided 6 "?", mkProvided 7 "C", mkProvided 8 "C",
    mkProvided 9 "C", mkProvided 10 "D", mkProvided 11 "D"]

/-- C3: whatever the outcome of the random tie-break (any `choice` that
picks a member of a non-empty list), the letter returned by
`determine_random_letter` has minimum frequency among `{A, B, C, D}` over
the provided answers of the up-to-5 preceding and up-to-5 following
questions (current excluded); and on the spec's `[A,A,A,B,B,C,C,C,D,D]`
neighborhood the assigned letter is always `B` or `D`.  (`process_pdf`
assigns exactly this letter as `suggested_correction` of every
`option_missing` question.) -/
theorem claim_C3_tie_break_min_frequency (choice : List String → String)
    (hc : ∀ l : List String, l ≠ [] → choice l ∈ l) :
    (∀ (qs : List QaCorrector.Question) (idx : Nat) (L : String),
        L ∈ ["A", "B", "C", "D"] →
        QaCorrector.letter_freq (QaCorrector.nearby_answers qs idx)
            (QaCorrector.determine_random_letter qs idx choice)
          ≤ QaCorrector.letter_freq (QaCorrector.nearby_answers qs idx) L)
    ∧ (QaCorrector.determine_random_letter c3Questions 5 choice = "B"
        ∨ QaCorrector.determine_random_letter c3Questions 5 choice = "D") := by
  constructor
  · intro qs idx L hL
    have hmem := hc _ (tie_candidates_ne_nil (QaCorrector.nearby_answers qs idx))
    have hpred := (List.mem_filter.mp hmem).2
    have heq : QaCorrector.letter_freq (QaCorrector.nearby_answers qs idx)
        (choice (QaCorrector.tie_candidates (QaCorrector.nearby_answers qs idx)))
          = QaCorrector.min_freq (QaCorrector.nearby_answers qs idx) := by
      simpa using hpred
    unfold QaCorrector.determine_random_letter
    rw [heq]
    exact min_freq_le _ L hL
  · have hmem := hc _ (tie_candidates_ne_nil (QaCorrector.nearby_answers c3Questions 5))
    have hbd : QaCorrector.tie_candidates (QaCorrector.nearby_answers c3Questions 5)
        = ["B", "D"] := by decide
    rw [hbd] at hmem
    unfold QaCorrector.determine_random_letter
    rw [hbd]
    simpa using hmem

/-- A deterministic resolution of the random draw: take the first
candidate. -/
def headChoice (l : List String) : String := l.headD "A"

/-- Witness for C3: with the first-candidate draw, the spec's neighborhood
gets letter `B` or `D`. -/
theorem claim_C3_witness :
    QaCorrector.determine_random_letter c3Questions 5 headChoice = "B"
      ∨ QaCorrector.determine_random_letter c3Questions 5 headChoice = "D" :=
  (claim_C3_tie_break_min_frequency headChoice (fun l hl => by
    cases l with
    | nil => exact absurd rfl hl
    | cons a t => simp [headChoice])).2

/-- C10: `determine_random_letter` is total and closed over the option
alphabet — for every question list, index, and tie-break outcome it returns
one of `A`, `B`, `C`, `D`; when the neighborhood window is empty (so all
counts are zero) all four letters are tied minimum-frequency candidates. -/
theorem claim_C10_tie_break_total (qs : List QaCorrector.Question) (idx : Nat)
    (choice : List String → String)
    (hc : ∀ l : List String, l ≠ [] → choice l ∈ l) :
    QaCorrector.determine_random_letter qs idx choice ∈ ["A", "B", "C", "D"]
    ∧ (QaCorrector.nearby_answers qs idx = [] →
        QaCorrector.tie_candidates (QaCorrector.nearby_answers qs idx)
          = ["A", "B", "C", "D"]) := by
  constructor
  · have hmem := hc _ (tie_candidates_ne_nil (QaCorrector.nearby_answers qs idx))
    unfold QaCorrector.determine_random_letter
    exact List.mem_of_mem_filter hmem
  · intro h
    rw [h]
    decide

/-- Witness for C10: on the empty question list (empty window, all counts
zero) the returned letter is in the alphabet. -/
theorem claim_C10_witness :
    QaCorrector.determine_random_letter [] 0 headChoice ∈ ["A", "B", "C", "D"] :=
  (claim_C10_tie_break_total [] 0 headChoice (fun l hl => by
    cases l with
    | nil => exact absurd rfl hl
    | cons a t => simp [headChoice])).1

/-! ### C7 — every emitted question has a positive number and options -/

/-- `save_question` preserves the parser invariant: anything it appends has
a positive number and non-empty options, by its own guard. -/
theorem save_question_good (qs : List QaCorrector.Question) (num : Nat)
    (cat txt : String) (opts : List (String × String)) (ak : List (Nat × String))
    (h : ∀ q ∈ qs, 0 < q.number ∧ q.options ≠ []) :
    ∀ q ∈ QaCorrector.save_question qs num cat txt opts ak,
      0 < q.number ∧ q.options ≠ [] := by
  intro q hq
  unfold QaCorrector.save_question at hq
  split at hq
  · rename_i hcond
    simp only [Bool.and_eq_true, decide_eq_true_eq, Bool.not_eq_true'] at hcond
    rcases List.mem_append.mp hq with hq | hq
    · exact h q hq
    · rcases List.mem_singleton.mp hq with rfl
      refine ⟨hcond.1, ?_⟩
      simpa [List.isEmpty_iff] using hcond.2
  · exact h q hq

/-- `processLine` preserves the parser invariant. -/
theorem processLine_good (st : QaCorrector.ScanState) (line : String)
    (h : ∀ q ∈ st.questions, 0 < q.number ∧ q.options ≠ []) :
    ∀ q ∈ (QaCorrector.processLine st line).questions,
      0 < q.number ∧ q.options ≠ [] := by
  intro q hq
  unfold QaCorrector.processLine at hq
  dsimp only at hq
  repeat' split at hq
  all_goals
    first
    | exact h q hq
    | exact save_question_good _ _ _ _ _ _ h q hq

/-- The whole line scan preserves the parser invariant. -/
theorem foldl_processLine_good (lines : List String) (st : QaCorrector.ScanState)
    (h : ∀ q ∈ st.questions, 0 < q.number ∧ q.options ≠ []) :
    ∀ q ∈ (lines.foldl QaCorrector.processLine st).questions,
      0 < q.number ∧ q.options ≠ [] := by
  induction lines generalizing st with
  | nil => exact h
  | cons l rest ih => exact ih _ (processLine_good st l h)

/-- C7: every question emitted by the parser has a positive number and a
non-empty options mapping; an in-progress item with question text but no
recognized option lines is blocked by `save_question`'s guard and never
appears in the returned sequence. -/
theorem claim_C7_parser_invariant (lines : List String) (q : QaCorrector.Question)
    (hq : q ∈ (QaCorrector.parse_questions_and_answers lines).1) :
    0 < q.number ∧ q.options ≠ [] := by
  have hinit : ∀ r ∈ (QaCorrector.initState
      (QaCorrector.format2Key lines (QaCorrector.format1Key lines))).questions,
      0 < r.number ∧ r.options ≠ [] := by
    intro r hr
    simp [QaCorrector.initState] at hr
  have hfold := foldl_processLine_good lines _ hinit
  unfold QaCorrector.parse_questions_and_answers at hq
  dsimp only at hq
  rcases List.mem_map.mp hq with ⟨q0, hq0, hfq⟩
  have hq0good : 0 < q0.number ∧ q0.options ≠ [] := by
    split at hq0
    · exact save_question_good _ _ _ _ _ _ hfold q0 hq0
    · exact hfold q0 hq0
  split at hfq
  · subst hfq
    simpa using hq0good
  · subst hfq
    exact hq0good

/-- The single-question document used by the C7 witness. -/
def c7Document : List String := ["1. What is 2+2?", "A) 3", "B) 4"]

/-- The question that document parses to. -/
def c7Question : QaCorrector.Question :=
  { number := 1
    category := ""
    text := "What is 2+2?"
    options := [("A", "3"), ("B", "4")]
    provided_answer := "?" }

/-- Witness for C7: the question parsed from the concrete document has a
positive number and non-empty options. -/
theorem claim_C7_witness : 0 < c7Question.number ∧ c7Question.options ≠ [] :=
  claim_C7_parser_invariant c7Document c7Question (by decide)

/-! ### C8 — documents without numbered items -/

/-- Updating one key does not disturb lookups of another key. -/
theorem dictGet?_dictSet_ne [DecidableEq κ] (m : List (κ × String)) (k k' : κ)
    (v : String) (h : k' ≠ k) : dictGet? (dictSet m k v) k' = dictGet? m k' := by
  induction m with
  | nil => simp [dictSet, dictGet?, Ne.symm h]
  | cons p rest ih =>
    rcases p with ⟨pk, pv⟩
    by_cases hpk : pk = k
    · subst hpk
      simp [dictSet, dictGet?, Ne.symm h]
    · simp only [dictSet, if_neg hpk, dictGet?]
      by_cases hpk' : pk = k'
      · simp [hpk']
      · simp [hpk', ih]

/-- The inline-numbered pass writes a key only when it is absent, so every
key already claimed keeps its value through the whole pass. -/
theorem format2Key_preserves (lines : List String) (ak : List (Nat × String))
    (n : Nat) (h : dictHas ak n = true) :
    dictGet? (QaCorrector.format2Key lines ak) n = dictGet? ak n := by
  unfold QaCorrector.format2Key
  generalize ((lines.map
    (fun l => QaCorrector.findallLine QaCorrector.inlineNumberedAt l)).flatten) = entries
  induction entries generalizing ak with
  | nil => rfl
  | cons e rest ih =>
    simp only [List.foldl_cons]
    by_cases he : dictHas ak e.1 = true
    · rw [if_pos he]
      exact ih ak h
    · rw [if_neg he]
      have hne : n ≠ e.1 := fun heq => he (heq ▸ h)
      have h2 : dictHas (dictSet ak e.1 (charToStr e.2.toUpper)) n = true := by
        unfold dictHas
        rw [dictGet?_dictSet_ne _ _ _ _ hne]
        exact h
      rw [ih _ h2]
      exact dictGet?_dictSet_ne _ _ _ _ hne

/-- The spec's precedence example: a document with a trailing Answer Key
block assigning question 3 → B and an inline line `3. Answer: C`.  The
final empty line is the text's trailing newline (a text produced by
`extract_text_from_pdf` always ends in `"\n\n"`); without it the FORMAT 1
regex, whose terminator lookahead needs a newline after the block, would
match nothing at all. -/
def c2Document : List String :=
  ["3. What is x?", "A) 1", "B) 2", "3. Answer: C", "Answer Key", "3. B", ""]

/-- A document whose trailing block assigns question 3 → B while a
post-block-inline `Correct Answer: D` line follows question 3's body. -/
def c2OverwriteDoc : List String :=
  ["Answer Key", "3. B", "Test 2", "3. What is x?", "A) 1", "B) 2",
    "Correct Answer: D"]

/-- C2 (amended): an answer-key entry claimed by the trailing-block format
is never overwritten by the later inline-numbered pass (that pass fills
only unclaimed numbers), and on the spec's example document — block 3 → B
plus inline `3. Answer: C` — the resolved key for question 3 is B.  Full
first-match precedence does not hold, however: a post-block-inline
`Correct Answer: X` line attached to an open question overwrites any
earlier-format entry for it (see the counterexample). -/
theorem claim_C2_block_precedence_amended :
    (∀ (lines : List String) (ak : List (Nat × String)) (n : Nat),
        dictHas ak n = true →
        dictGet? (QaCorrector.format2Key lines ak) n = dictGet? ak n)
    ∧ dictGet? (QaCorrector.parse_questions_and_answers c2Document).2 3 = some "B" :=
  ⟨format2Key_preserves, by decide⟩

/-- Witness for C2: on a key where question 3 is already claimed as B, the
inline-numbered pass over `3. Answer: C` leaves the entry at B. -/
theorem claim_C2_witness :
    dictGet? (QaCorrector.format2Key ["3. Answer: C"] [(3, "B")]) 3
      = dictGet? [(3, "B")] 3 :=
  claim_C2_block_precedence_amended.1 ["3. Answer: C"] [(3, "B")] 3 (by decide)

/-- Counterexample to C2 as stated: in `c2OverwriteDoc` the trailing block
claims question 3 → B first, yet the post-block-inline `Correct Answer: D`
(a later-precedence format) overwrites it, so the resolved key is D, not
B. -/
theorem claim_C2_counterexample :
    QaCorrector.format1Key c2OverwriteDoc = [(3, "B")]
    ∧ dictGet? (QaCorrector.parse_questions_and_answers c2OverwriteDoc).2 3
        = some "D" := by
  constructor <;> decide
